import Mathlib

/-!
# bootloadHID: hardware configuration header and USB backend selector

A shallow embedding of `firmware/bootloaderconfig.h` (the functions
`bootLoaderInit`, `bootLoaderExit` and the macro `bootLoaderCondition`) and of
the conditional inclusion in `commandline/usbcalls.c`.

The AVR I/O registers are 8 bits wide; they are modelled as natural numbers and
every store truncates the stored value with `% 256`.  C expressions are
evaluated in `int`, which is 16 bits wide on AVR.
-/

namespace BootloadHID

/-! ## Registers -/

/-- Port letters of the AVR family; the macros paste one of them onto the
register name prefixes `PORT`, `PIN` and `DDR`. -/
inductive PortName where
  | A | B | C | D
  deriving DecidableEq, Repr

/-- I/O registers the header refers to: the three registers of each port and
the MCU control and status register holding the reset-cause flags. -/
inductive Reg where
  | DDR (a : PortName)
  | PORT (a : PortName)
  | PIN (a : PortName)
  | MCUCSR
  deriving DecidableEq, Repr

/-- Contents of the I/O register file. -/
abbrev Regs := Reg → Nat

/-- The register file right after a power-on reset of the ports: all zero. -/
def Regs.zero : Regs := fun _ => 0

/-- Store to an 8-bit I/O register: the value is truncated to 8 bits. -/
def Regs.write (s : Regs) (r : Reg) (v : Nat) : Regs :=
  Function.update s r (v % 256)

/-! ## C operators on `int` and avr-libc macros -/

/-- The C operator `~` on a 16-bit `int`, on the representative modulo `2^16`. -/
def cNot (x : Nat) : Nat := (x % 65536) ^^^ 65535

/-- The avr-libc macro `_BV(bit)`, which is `(1 << (bit))`. -/
def _BV (bit : Nat) : Nat := 1 <<< bit

/-! ## Macro magic -/

/-- The macro `PIN_PORT(a)`: the identifier `PORTa`. -/
def PIN_PORT (a : PortName) : Reg := Reg.PORT a

/-- The macro `PIN_PIN(a)`: the identifier `PINa`. -/
def PIN_PIN (a : PortName) : Reg := Reg.PIN a

/-- The macro `PIN_DDR(a)`: the identifier `DDRa`. -/
def PIN_DDR (a : PortName) : Reg := Reg.DDR a

/-- The macro `PIN(a, b)`: the identifier `Pab`, which avr-libc defines as the
bit number `b`. -/
def PIN (_a : PortName) (b : Nat) : Nat := b

/-! ## Hardware configuration -/

/-- The configuration macros that the header only defines when the build has
not defined them already.  On an 8-bit port the bit numbers are 0 to 7; the
statements below that range over every configuration do not depend on it. -/
structure Config where
  JUMPER_PORT : PortName
  LED_PORT : PortName
  JUMPER_BIT : Nat
  LED_BIT : Nat
  deriving DecidableEq, Repr

/-- The macro `USB_CFG_IOPORTNAME`. -/
def USB_CFG_IOPORTNAME : PortName := PortName.D

/-- The macro `USB_CFG_DMINUS_BIT`. -/
def USB_CFG_DMINUS_BIT : Nat := 7

/-- The macro `USB_CFG_DPLUS_BIT`. -/
def USB_CFG_DPLUS_BIT : Nat := 2

/-- The values the header gives the four macros by default: jumper and LED on
the USB port, jumper on bit 6, LED on bit 5. -/
def defaultConfig : Config :=
  { JUMPER_PORT := USB_CFG_IOPORTNAME
    LED_PORT := USB_CFG_IOPORTNAME
    JUMPER_BIT := 6
    LED_BIT := 5 }

/-! ## The three operations -/

/-- The function `bootLoaderInit`: four read-modify-write statements on the
direction and data registers, then the store `MCUCSR = 0`. -/
def bootLoaderInit (c : Config) (s : Regs) : Regs :=
  let s1 := s.write (PIN_DDR c.JUMPER_PORT) (s (PIN_DDR c.JUMPER_PORT) &&& cNot (_BV c.JUMPER_BIT))
  let s2 := s1.write (PIN_DDR c.LED_PORT) (s1 (PIN_DDR c.LED_PORT) ||| _BV c.LED_BIT)
  let s3 := s2.write (PIN_PORT c.JUMPER_PORT) (s2 (PIN_PORT c.JUMPER_PORT) ||| _BV c.JUMPER_BIT)
  let s4 := s3.write (PIN_PORT c.LED_PORT) (s3 (PIN_PORT c.LED_PORT) ||| _BV c.LED_BIT)
  s4.write Reg.MCUCSR 0

/-- The function `bootLoaderExit`: four stores of the constant 0. -/
def bootLoaderExit (c : Config) (s : Regs) : Regs :=
  let s1 := s.write (PIN_PORT c.LED_PORT) 0
  let s2 := s1.write (PIN_PORT c.JUMPER_PORT) 0
  let s3 := s2.write (PIN_DDR c.LED_PORT) 0
  s3.write (PIN_DDR c.JUMPER_PORT) 0

/-- The macro `bootLoaderCondition()`. -/
def bootLoaderCondition (c : Config) (s : Regs) : Bool :=
  (s (PIN_PIN c.JUMPER_PORT) &&& (1 <<< PIN c.JUMPER_PORT c.JUMPER_BIT)) == 0

/-! ## Backend selection in `usbcalls.c` -/

/-- The two source files `usbcalls.c` can include. -/
inductive Backend where
  | usb_windows
  | usb_libusb
  deriving DecidableEq, Repr

/-- The files included by `usbcalls.c`, in order, as a function of whether the
preprocessor symbol `WIN32` is defined. -/
def usbcalls (WIN32 : Bool) : List Backend :=
  if WIN32 then [Backend.usb_windows] else [Backend.usb_libusb]

/-! ## Register names of port D -/

/-- The register `DDRD`. -/
abbrev DDRD : Reg := Reg.DDR PortName.D

/-- The register `PORTD`. -/
abbrev PORTD : Reg := Reg.PORT PortName.D

/-- The register `PIND`. -/
abbrev PIND : Reg := Reg.PIN PortName.D

/-- A register file that holds `d` in `DDRD`, `p` in `PORTD`, `i` in `PIND`,
`m` in `MCUCSR` and zero elsewhere. -/
def mkRegs (d p i m : Nat) : Regs := fun r =>
  match r with
  | Reg.DDR PortName.D => d
  | Reg.PORT PortName.D => p
  | Reg.PIN PortName.D => i
  | Reg.MCUCSR => m
  | _ => 0

/-! ## Bit-level facts about the C operators -/

theorem testBit_mod_256 (x i : Nat) : (x % 256).testBit i = (decide (i < 8) && x.testBit i) := by
  have h : (256 : Nat) = 2 ^ 8 := by norm_num
  rw [h, Nat.testBit_mod_two_pow]

theorem testBit_BV (b i : Nat) : (_BV b).testBit i = decide (b = i) := by
  unfold _BV
  rw [Nat.one_shiftLeft, Nat.testBit_two_pow]

theorem testBit_cNot (x i : Nat) : (cNot x).testBit i = (decide (i < 16) && !x.testBit i) := by
  unfold cNot
  have h : (65536 : Nat) = 2 ^ 16 := by norm_num
  have h1 : (65535 : Nat) = 2 ^ 16 - 1 := by norm_num
  rw [Nat.testBit_xor, h, h1, Nat.testBit_mod_two_pow, Nat.testBit_two_pow_sub_one]
  by_cases hi : i < 16 <;> simp [hi]

theorem write_apply (s : Regs) (r r1 : Reg) (v : Nat) :
    (s.write r v) r1 = if r1 = r then v % 256 else s r1 := by
  simp [Regs.write, Function.update_apply]

/-! ## Bits of the registers after `bootLoaderInit` -/

theorem init_PIN (c : Config) (s : Regs) (a : PortName) :
    bootLoaderInit c s (Reg.PIN a) = s (Reg.PIN a) := by
  simp [bootLoaderInit, write_apply, PIN_DDR, PIN_PORT]

theorem init_MCUCSR (c : Config) (s : Regs) : bootLoaderInit c s Reg.MCUCSR = 0 := by
  simp [bootLoaderInit, write_apply]

theorem init_DDR_bit (c : Config) (s : Regs) (a : PortName) (i : Nat) :
    (bootLoaderInit c s (Reg.DDR a)).testBit i =
      if a = c.LED_PORT ∧ c.LED_BIT = i ∧ i < 8 then true
      else if a = c.JUMPER_PORT ∧ c.JUMPER_BIT = i then false
      else if a = c.LED_PORT ∨ a = c.JUMPER_PORT then (decide (i < 8) && (s (Reg.DDR a)).testBit i)
      else (s (Reg.DDR a)).testBit i := by
  have e1 : (a = c.JUMPER_PORT) = (c.JUMPER_PORT = a) := propext eq_comm
  have e2 : (a = c.LED_PORT) = (c.LED_PORT = a) := propext eq_comm
  simp only [bootLoaderInit, write_apply, PIN_DDR, PIN_PORT, e1, e2, Reg.DDR.injEq, reduceCtorEq,
    if_false]
  by_cases h1 : c.JUMPER_PORT = a <;> by_cases h2 : c.LED_PORT = a <;>
    by_cases h8 : i < 8 <;> by_cases hl : c.LED_BIT = i <;> by_cases hj : c.JUMPER_BIT = i <;>
    by_cases h16 : i < 16 <;>
    first
      | omega
      | simp [h1, h2, e1, e2, h8, hl, hj, h16, testBit_mod_256, Nat.testBit_or,
          Nat.testBit_and, testBit_BV, testBit_cNot]

theorem init_PORT_bit (c : Config) (s : Regs) (a : PortName) (i : Nat) :
    (bootLoaderInit c s (Reg.PORT a)).testBit i =
      if i < 8 ∧ ((a = c.LED_PORT ∧ c.LED_BIT = i) ∨ (a = c.JUMPER_PORT ∧ c.JUMPER_BIT = i)) then true
      else if a = c.LED_PORT ∨ a = c.JUMPER_PORT then
        (decide (i < 8) && (s (Reg.PORT a)).testBit i)
      else (s (Reg.PORT a)).testBit i := by
  have e1 : (a = c.JUMPER_PORT) = (c.JUMPER_PORT = a) := propext eq_comm
  have e2 : (a = c.LED_PORT) = (c.LED_PORT = a) := propext eq_comm
  simp only [bootLoaderInit, write_apply, PIN_DDR, PIN_PORT, e1, e2, Reg.PORT.injEq, reduceCtorEq,
    if_false]
  by_cases h1 : c.JUMPER_PORT = a <;> by_cases h2 : c.LED_PORT = a <;>
    by_cases h8 : i < 8 <;> by_cases hl : c.LED_BIT = i <;> by_cases hj : c.JUMPER_BIT = i <;>
    simp [h1, h2, e1, e2, h8, hl, hj, testBit_mod_256, Nat.testBit_or, testBit_BV]

theorem init_DDR_idem (c : Config) (s : Regs) (a : PortName) :
    bootLoaderInit c (bootLoaderInit c s) (Reg.DDR a) = bootLoaderInit c s (Reg.DDR a) := by
  apply Nat.eq_of_testBit_eq
  intro i
  rw [init_DDR_bit c (bootLoaderInit c s) a i, init_DDR_bit c s a i]
  by_cases h1 : a = c.JUMPER_PORT <;> by_cases h2 : a = c.LED_PORT <;>
    by_cases h8 : i < 8 <;> by_cases hl : c.LED_BIT = i <;> by_cases hj : c.JUMPER_BIT = i <;>
    simp [h1, h2, h8, hl, hj]

theorem init_PORT_idem (c : Config) (s : Regs) (a : PortName) :
    bootLoaderInit c (bootLoaderInit c s) (Reg.PORT a) = bootLoaderInit c s (Reg.PORT a) := by
  apply Nat.eq_of_testBit_eq
  intro i
  rw [init_PORT_bit c (bootLoaderInit c s) a i, init_PORT_bit c s a i]
  by_cases h1 : a = c.JUMPER_PORT <;> by_cases h2 : a = c.LED_PORT <;>
    by_cases h8 : i < 8 <;> by_cases hl : c.LED_BIT = i <;> by_cases hj : c.JUMPER_BIT = i <;>
    simp [h1, h2, h8, hl, hj]

/-! ## Closed form of the register contents after `bootLoaderExit` -/

theorem exit_apply (c : Config) (s : Regs) (r : Reg) :
    bootLoaderExit c s r =
      if r = PIN_DDR c.JUMPER_PORT ∨ r = PIN_DDR c.LED_PORT ∨
          r = PIN_PORT c.JUMPER_PORT ∨ r = PIN_PORT c.LED_PORT then 0
      else s r := by
  simp only [bootLoaderExit, write_apply]
  by_cases h1 : r = PIN_DDR c.JUMPER_PORT <;> by_cases h2 : r = PIN_DDR c.LED_PORT <;>
    by_cases h3 : r = PIN_PORT c.JUMPER_PORT <;> by_cases h4 : r = PIN_PORT c.LED_PORT <;>
    simp [h1, h2, h3, h4]

theorem exit_MCUCSR (c : Config) (s : Regs) : bootLoaderExit c s Reg.MCUCSR = s Reg.MCUCSR := by
  simp [exit_apply, PIN_DDR, PIN_PORT]

theorem exit_PIN (c : Config) (s : Regs) (a : PortName) :
    bootLoaderExit c s (Reg.PIN a) = s (Reg.PIN a) := by
  simp [exit_apply, PIN_DDR, PIN_PORT]

theorem exit_DDR_JUMPER (c : Config) (s : Regs) : bootLoaderExit c s (PIN_DDR c.JUMPER_PORT) = 0 := by
  simp [exit_apply]

theorem exit_DDR_LED (c : Config) (s : Regs) : bootLoaderExit c s (PIN_DDR c.LED_PORT) = 0 := by
  simp [exit_apply]

theorem exit_PORT_JUMPER (c : Config) (s : Regs) : bootLoaderExit c s (PIN_PORT c.JUMPER_PORT) = 0 := by
  simp [exit_apply]

theorem exit_PORT_LED (c : Config) (s : Regs) : bootLoaderExit c s (PIN_PORT c.LED_PORT) = 0 := by
  simp [exit_apply]

theorem exit_idem (c : Config) (s : Regs) :
    bootLoaderExit c (bootLoaderExit c s) = bootLoaderExit c s := by
  funext r
  rw [exit_apply c (bootLoaderExit c s) r, exit_apply c s r]
  split <;> rfl

/-- The macro `bootLoaderCondition()` tests bit `JUMPER_BIT` of the input register. -/
theorem condition_iff (c : Config) (s : Regs) :
    bootLoaderCondition c s = true ↔ (s (PIN_PIN c.JUMPER_PORT)).testBit c.JUMPER_BIT = false := by
  unfold bootLoaderCondition PIN
  rw [beq_iff_eq, Nat.one_shiftLeft]
  constructor
  · intro h
    have := congrArg (fun n => Nat.testBit n c.JUMPER_BIT) h
    simpa [Nat.testBit_and, Nat.testBit_two_pow] using this
  · intro h
    apply Nat.eq_of_testBit_eq
    intro i
    by_cases hi : c.JUMPER_BIT = i
    · subst hi; simp [Nat.testBit_and, Nat.testBit_two_pow, h]
    · simp [Nat.testBit_and, Nat.testBit_two_pow, hi]

/-! ## The claims -/

/-- C1: with the default configuration, after `bootLoaderInit` bit 6 of `DDRD` is
0 and bit 6 of `PORTD` is 1 (the jumper is an input with pull-up), and bit 5 of
`DDRD` and bit 5 of `PORTD` are 1 (the LED is an output driven high), for
every initial register state. -/
theorem init_default_pins (s : Regs) :
    (bootLoaderInit defaultConfig s DDRD).testBit 6 = false ∧
    (bootLoaderInit defaultConfig s PORTD).testBit 6 = true ∧
    (bootLoaderInit defaultConfig s DDRD).testBit 5 = true ∧
    (bootLoaderInit defaultConfig s PORTD).testBit 5 = true := by
  refine ⟨?_, ?_, ?_, ?_⟩
  · rw [init_DDR_bit]; simp [defaultConfig, USB_CFG_IOPORTNAME]
  · rw [init_PORT_bit]; simp [defaultConfig, USB_CFG_IOPORTNAME]
  · rw [init_DDR_bit]; simp [defaultConfig, USB_CFG_IOPORTNAME]
  · rw [init_PORT_bit]; simp [defaultConfig, USB_CFG_IOPORTNAME]

/-- C2: with the default configuration, `bootLoaderCondition` is true exactly
when bit 6 of `PIND` is 0, the tested bit index `PD6` being `JUMPER_BIT`, and
any two register states that agree on that one bit give the same result. -/
theorem condition_default (s : Regs) :
    (bootLoaderCondition defaultConfig s = true ↔ (s PIND).testBit 6 = false) ∧
    PIN defaultConfig.JUMPER_PORT defaultConfig.JUMPER_BIT = defaultConfig.JUMPER_BIT ∧
    ∀ t : Regs, (t PIND).testBit 6 = (s PIND).testBit 6 →
      bootLoaderCondition defaultConfig t = bootLoaderCondition defaultConfig s := by
  refine ⟨condition_iff defaultConfig s, rfl, ?_⟩
  intro t h
  have hs := condition_iff defaultConfig s
  have ht := condition_iff defaultConfig t
  have e : (t (PIN_PIN defaultConfig.JUMPER_PORT)).testBit defaultConfig.JUMPER_BIT =
      (s (PIN_PIN defaultConfig.JUMPER_PORT)).testBit defaultConfig.JUMPER_BIT := h
  rw [e] at ht
  cases h1 : bootLoaderCondition defaultConfig t <;>
    cases h2 : bootLoaderCondition defaultConfig s <;> simp_all

/-- Witness of C2: a state with `PIND = 0xBF` and one with `PIND = 0`, other
registers differing, agree on bit 6 and give the same condition. -/
theorem condition_default_witness :
    bootLoaderCondition defaultConfig (mkRegs 0xFF 0x80 0xBF 7) =
      bootLoaderCondition defaultConfig (mkRegs 0 0 0 0) :=
  (condition_default (mkRegs 0 0 0 0)).2.2 (mkRegs 0xFF 0x80 0xBF 7) (by decide)

/-- C3: after `bootLoaderExit` the jumper pin and the LED pin both have their
direction bit and their output bit 0, whatever the register state before, and
`bootLoaderExit` is idempotent. -/
theorem exit_pins_cleared (c : Config) (s : Regs) :
    (bootLoaderExit c s (PIN_DDR c.JUMPER_PORT)).testBit c.JUMPER_BIT = false ∧
    (bootLoaderExit c s (PIN_PORT c.JUMPER_PORT)).testBit c.JUMPER_BIT = false ∧
    (bootLoaderExit c s (PIN_DDR c.LED_PORT)).testBit c.LED_BIT = false ∧
    (bootLoaderExit c s (PIN_PORT c.LED_PORT)).testBit c.LED_BIT = false ∧
    bootLoaderExit c (bootLoaderExit c s) = bootLoaderExit c s := by
  refine ⟨?_, ?_, ?_, ?_, exit_idem c s⟩
  · rw [exit_DDR_JUMPER]; exact Nat.zero_testBit _
  · rw [exit_PORT_JUMPER]; exact Nat.zero_testBit _
  · rw [exit_DDR_LED]; exact Nat.zero_testBit _
  · rw [exit_PORT_LED]; exact Nat.zero_testBit _

/-- C4: `bootLoaderInit` is idempotent on the whole register state. -/
theorem init_idempotent (c : Config) (s : Regs) :
    bootLoaderInit c (bootLoaderInit c s) = bootLoaderInit c s := by
  funext r
  cases r with
  | DDR a => exact init_DDR_idem c s a
  | PORT a => exact init_PORT_idem c s a
  | PIN a => rw [init_PIN c (bootLoaderInit c s) a]
  | MCUCSR => rw [init_MCUCSR, init_MCUCSR]

/-- C5: after `bootLoaderInit` the register `MCUCSR` reads zero, whatever it
held before. -/
theorem init_clears_MCUCSR (c : Config) (s : Regs) : bootLoaderInit c s Reg.MCUCSR = 0 :=
  init_MCUCSR c s

/-- C6 fails as stated: in the default configuration, from a state where the
USB D- bit 7 of `DDRD` and the USB D+ bit 2 of `PORTD` are set,
`bootLoaderExit` does not leave every bit other than the jumper and LED bits
as it was. -/
theorem exit_frame_fails :
    ¬ ∀ i : Nat, i ≠ defaultConfig.JUMPER_BIT → i ≠ defaultConfig.LED_BIT →
        (bootLoaderExit defaultConfig (mkRegs 0x80 0x04 0 0) DDRD).testBit i =
          (mkRegs 0x80 0x04 0 0 DDRD).testBit i ∧
        (bootLoaderExit defaultConfig (mkRegs 0x80 0x04 0 0) PORTD).testBit i =
          (mkRegs 0x80 0x04 0 0 PORTD).testBit i := by
  intro h
  have h7 := (h USB_CFG_DMINUS_BIT (by decide) (by decide)).1
  have e : bootLoaderExit defaultConfig (mkRegs 0x80 0x04 0 0) DDRD = 0 :=
    exit_DDR_JUMPER defaultConfig _
  rw [e] at h7
  revert h7
  decide

/-- C6 amended: `bootLoaderExit` stores 0 to the whole data register and the
whole direction register of the LED port and of the jumper port, and every
other register keeps its value. -/
theorem exit_effect (c : Config) (s : Regs) :
    bootLoaderExit c s (PIN_PORT c.LED_PORT) = 0 ∧
    bootLoaderExit c s (PIN_PORT c.JUMPER_PORT) = 0 ∧
    bootLoaderExit c s (PIN_DDR c.LED_PORT) = 0 ∧
    bootLoaderExit c s (PIN_DDR c.JUMPER_PORT) = 0 ∧
    ∀ r : Reg, r ≠ PIN_PORT c.LED_PORT → r ≠ PIN_PORT c.JUMPER_PORT →
      r ≠ PIN_DDR c.LED_PORT → r ≠ PIN_DDR c.JUMPER_PORT → bootLoaderExit c s r = s r := by
  refine ⟨exit_PORT_LED c s, exit_PORT_JUMPER c s, exit_DDR_LED c s, exit_DDR_JUMPER c s, ?_⟩
  intro r h1 h2 h3 h4
  rw [exit_apply]
  simp [h1, h2, h3, h4]

/-- Witness of C6 amended: in the default configuration `PIND` keeps its value
`0x40` across `bootLoaderExit`. -/
theorem exit_effect_witness :
    bootLoaderExit defaultConfig (mkRegs 0x80 0x04 0x40 3) PIND = mkRegs 0x80 0x04 0x40 3 PIND :=
  (exit_effect defaultConfig (mkRegs 0x80 0x04 0x40 3)).2.2.2.2 PIND
    (by decide) (by decide) (by decide) (by decide)

/-- C7 fails as stated: in the default configuration, from a state with
`DDRD = 0x80`, the direction register after `bootLoaderInit` and then
`bootLoaderExit` is 0 and not `0x80`. -/
theorem exit_init_DDR_differs :
    bootLoaderExit defaultConfig (bootLoaderInit defaultConfig (mkRegs 0x80 0 0 0))
        (PIN_DDR defaultConfig.JUMPER_PORT) ≠
      mkRegs 0x80 0 0 0 (PIN_DDR defaultConfig.JUMPER_PORT) := by
  rw [exit_DDR_JUMPER]
  decide

/-- C7 amended: after `bootLoaderInit` and then `bootLoaderExit` the direction
registers of the jumper port and of the LED port are 0, so each equals its
value before the two calls exactly when that value was 0. -/
theorem exit_init_DDR (c : Config) (s : Regs) :
    bootLoaderExit c (bootLoaderInit c s) (PIN_DDR c.JUMPER_PORT) = 0 ∧
    bootLoaderExit c (bootLoaderInit c s) (PIN_DDR c.LED_PORT) = 0 ∧
    (bootLoaderExit c (bootLoaderInit c s) (PIN_DDR c.JUMPER_PORT) = s (PIN_DDR c.JUMPER_PORT) ↔
      s (PIN_DDR c.JUMPER_PORT) = 0) ∧
    (bootLoaderExit c (bootLoaderInit c s) (PIN_DDR c.LED_PORT) = s (PIN_DDR c.LED_PORT) ↔
      s (PIN_DDR c.LED_PORT) = 0) := by
  refine ⟨exit_DDR_JUMPER c _, exit_DDR_LED c _, ?_, ?_⟩
  · rw [exit_DDR_JUMPER]; exact eq_comm
  · rw [exit_DDR_LED]; exact eq_comm

/-- C8: after `bootLoaderInit` and then `bootLoaderExit` the direction and
output bits of the jumper pin and of the LED pin are 0 and `MCUCSR` is 0, and
`bootLoaderExit` leaves `MCUCSR` as it finds it. -/
theorem inactive_state (c : Config) (s : Regs) :
    (bootLoaderExit c (bootLoaderInit c s) (PIN_DDR c.JUMPER_PORT)).testBit c.JUMPER_BIT = false ∧
    (bootLoaderExit c (bootLoaderInit c s) (PIN_PORT c.JUMPER_PORT)).testBit c.JUMPER_BIT = false ∧
    (bootLoaderExit c (bootLoaderInit c s) (PIN_DDR c.LED_PORT)).testBit c.LED_BIT = false ∧
    (bootLoaderExit c (bootLoaderInit c s) (PIN_PORT c.LED_PORT)).testBit c.LED_BIT = false ∧
    bootLoaderExit c (bootLoaderInit c s) Reg.MCUCSR = 0 ∧
    ∀ t : Regs, bootLoaderExit c t Reg.MCUCSR = t Reg.MCUCSR := by
  refine ⟨?_, ?_, ?_, ?_, ?_, fun t => exit_MCUCSR c t⟩
  · rw [exit_DDR_JUMPER]; exact Nat.zero_testBit _
  · rw [exit_PORT_JUMPER]; exact Nat.zero_testBit _
  · rw [exit_DDR_LED]; exact Nat.zero_testBit _
  · rw [exit_PORT_LED]; exact Nat.zero_testBit _
  · rw [exit_MCUCSR, init_MCUCSR]

/-- C9: whether or not `WIN32` is defined, `usbcalls.c` includes exactly one
backend: `usb-windows.c` exactly when `WIN32` is defined, `usb-libusb.c`
exactly when it is not, and never both. -/
theorem usbcalls_one_backend (WIN32 : Bool) :
    (usbcalls WIN32).length = 1 ∧
    (Backend.usb_windows ∈ usbcalls WIN32 ↔ WIN32 = true) ∧
    (Backend.usb_libusb ∈ usbcalls WIN32 ↔ WIN32 = false) ∧
    ¬ (Backend.usb_windows ∈ usbcalls WIN32 ∧ Backend.usb_libusb ∈ usbcalls WIN32) := by
  cases WIN32 <;> simp [usbcalls]

/-- C10: with the default configuration, `bootLoaderInit` leaves every bit of
`DDRD` and `PORTD` other than bits 5 and 6 as it was and leaves `PIND`
unchanged; from the all-zero state it gives `DDRD = 0b00100000` and
`PORTD = 0b01100000`. -/
theorem init_default_frame (s : Regs) :
    (∀ i : Nat, i < 8 → i ≠ 5 → i ≠ 6 →
      (bootLoaderInit defaultConfig s DDRD).testBit i = (s DDRD).testBit i ∧
      (bootLoaderInit defaultConfig s PORTD).testBit i = (s PORTD).testBit i) ∧
    bootLoaderInit defaultConfig s PIND = s PIND ∧
    bootLoaderInit defaultConfig Regs.zero DDRD = 0b00100000 ∧
    bootLoaderInit defaultConfig Regs.zero PORTD = 0b01100000 := by
  refine ⟨?_, init_PIN defaultConfig s PortName.D, ?_, ?_⟩
  · intro i h8 h5 h6
    rw [init_DDR_bit, init_PORT_bit]
    simp [defaultConfig, USB_CFG_IOPORTNAME, h8, Ne.symm h5, Ne.symm h6]
  · decide
  · decide

/-- Witness of C10: bit 7 of `DDRD = 0x84` and of `PORTD = 0x9B` survives
`bootLoaderInit`. -/
theorem init_default_frame_witness :
    (bootLoaderInit defaultConfig (mkRegs 0x84 0x9B 0x40 3) DDRD).testBit 7 =
        (mkRegs 0x84 0x9B 0x40 3 DDRD).testBit 7 ∧
      (bootLoaderInit defaultConfig (mkRegs 0x84 0x9B 0x40 3) PORTD).testBit 7 =
        (mkRegs 0x84 0x9B 0x40 3 PORTD).testBit 7 :=
  (init_default_frame (mkRegs 0x84 0x9B 0x40 3)).1 7 (by decide) (by decide) (by decide)

end BootloadHID
